import Mathlib

/-!
Verification of the NiftyMIC volume-reconstruction orchestration pipeline
(`FirstEstimateOfHRVolume.py`, `VolumeReconstruction.py`) via a shallow
embedding.  External numerical collaborators (SimpleITK resampling and
registration, the SDA and inverse-problem solvers) are treated as oracles:
their outputs appear as inputs to the embedded functions, exactly as the
orchestration code consumes them.
-/

namespace NiftyMIC

/-- Rounding as performed by `np.round`: round half to even (banker's
rounding), used in `_get_isotropically_resampled_stack` for the new
through-plane size. -/
def npRound (q : ℚ) : ℤ :=
  let f := ⌊q⌋
  let r := q - f
  if r < 1/2 then f
  else if 1/2 < r then f + 1
  else if f % 2 = 0 then f else f + 1

/-- An affine transform on 3-D physical space: a 3×3 linear part `A` and a
translation `t`, as held by a `sitk` affine/Euler transform. -/
structure AffineT where
  A : Fin 3 → Fin 3 → ℚ
  t : Fin 3 → ℚ

instance : DecidableEq AffineT := fun a b =>
  decidable_of_iff (a.A = b.A ∧ a.t = b.t) (by cases a; cases b; simp)

/-- The identity rigid transform, `sitk.Euler3DTransform()` freshly
constructed (zero rotation, zero translation). -/
def idAffine : AffineT :=
  { A := fun i j => if i = j then 1 else 0, t := fun _ => 0 }

/-- Modelled from the spec: `SimpleITKHelper.get_composited_sitk_affine_transform`
(not part of the provided sources).  The spec's Slice Transform Propagator
computes `new_transform = compose(T_i, slice.transform)`: the composite maps a
point x to `T1 (T2 x)`, i.e. matrix product for the linear part and
`A1 * t2 + t1` for the translation. -/
def composeAffine (S T : AffineT) : AffineT :=
  { A := fun i j => S.A i 0 * T.A 0 j + S.A i 1 * T.A 1 j + S.A i 2 * T.A 2 j,
    t := fun i => S.A i 0 * T.t 0 + S.A i 1 * T.t 1 + S.A i 2 * T.t 2 + S.t i }

lemma composeAffine_id (T : AffineT) : composeAffine idAffine T = T := by
  cases T with
  | mk A t =>
    unfold composeAffine idAffine
    congr 1
    · funext i j
      fin_cases i <;> simp
    · funext i
      fin_cases i <;> simp

/-- Interpolator selector passed to `sitk.Resample`. -/
inductive Interp where
  | nearestNeighbor : Interp
  | linear : Interp
deriving DecidableEq

/-- Geometry of a `sitk` 3-D image as read by the orchestrator:
spacing (`GetSpacing`), size (`GetSize`), origin (`GetOrigin`) and direction
cosine matrix (`GetDirection`, nine entries). -/
structure ImgGeom where
  sx : ℚ
  sy : ℚ
  sz : ℚ
  nx : ℕ
  ny : ℕ
  nz : ℕ
  origin : ℚ × ℚ × ℚ
  direction : Fin 9 → ℚ

instance : DecidableEq ImgGeom := fun a b =>
  decidable_of_iff
    (a.sx = b.sx ∧ a.sy = b.sy ∧ a.sz = b.sz ∧ a.nx = b.nx ∧ a.ny = b.ny ∧
      a.nz = b.nz ∧ a.origin = b.origin ∧ a.direction = b.direction)
    (by cases a; cases b; simp)

/-- The argument list handed to the external `sitk.Resample` call: output grid
(size, spacing, origin, direction), the transform, the interpolator and the
default (background) pixel value. -/
structure ResampleSpec where
  sizeX : ℕ
  sizeY : ℕ
  sizeZ : ℤ
  transform : AffineT
  interp : Interp
  origin : ℚ × ℚ × ℚ
  spX : ℚ
  spY : ℚ
  spZ : ℚ
  direction : Fin 9 → ℚ
  defaultPixelValue : ℚ

instance : DecidableEq ResampleSpec := fun a b =>
  decidable_of_iff
    (a.sizeX = b.sizeX ∧ a.sizeY = b.sizeY ∧ a.sizeZ = b.sizeZ ∧
      a.transform = b.transform ∧ a.interp = b.interp ∧ a.origin = b.origin ∧
      a.spX = b.spX ∧ a.spY = b.spY ∧ a.spZ = b.spZ ∧
      a.direction = b.direction ∧ a.defaultPixelValue = b.defaultPixelValue)
    (by cases a; cases b; simp)

/-- `FirstEstimateOfHRVolume._get_isotropically_resampled_stack`: reads the
target stack's spacing and size, sets `size[2] = np.round(spacing[2]/spacing[0]*size[2])`
and `spacing[2] = spacing[0]`, then resamples both the image and its mask with
nearest-neighbour interpolation, an identity Euler transform, default pixel
value 0 and the target stack's own origin and direction.  The first component
is the grid handed to the image resampling, the second the grid handed to the
mask resampling. -/
def getIsotropicallyResampledStack (g : ImgGeom) : ResampleSpec × ResampleSpec :=
  let sizeZ : ℤ := npRound (g.sz / g.sx * (g.nz : ℚ))
  ({ sizeX := g.nx, sizeY := g.ny, sizeZ := sizeZ,
     transform := idAffine, interp := Interp.nearestNeighbor,
     origin := g.origin, spX := g.sx, spY := g.sy, spZ := g.sx,
     direction := g.direction, defaultPixelValue := 0 },
   { sizeX := g.nx, sizeY := g.ny, sizeZ := sizeZ,
     transform := idAffine, interp := Interp.nearestNeighbor,
     origin := g.origin, spX := g.sx, spY := g.sy, spZ := g.sx,
     direction := g.direction, defaultPixelValue := 0 })

/-- The Python-level error raised by the grid computation when
`spacing[0] = 0`: `spacing[2]/spacing[0]` is then non-finite (inf or nan) and
numpy raises `ValueError` when the rounded value is assigned into the integer
`size` array.  No other input makes `_get_isotropically_resampled_stack`
raise; in particular there is no geometry validation. -/
inductive PyError where
  | valueError : PyError
deriving DecidableEq

/-- `_get_isotropically_resampled_stack` with its only failure path made
explicit: `sx = 0` raises a numpy `ValueError` (non-finite size assignment);
every other geometry, degenerate or not, goes through the straight-line grid
computation. -/
def getIsotropicallyResampledStackE (g : ImgGeom) :
    Except PyError (ResampleSpec × ResampleSpec) :=
  if g.sx = 0 then Except.error PyError.valueError
  else Except.ok (getIsotropicallyResampledStack g)

/-!
## Union aggregation (`_run_averaging`)

The resampling of each stack and of its mask onto the HR grid is an external
`sitk.Resample` call; `_run_averaging` then works voxelwise on the resulting
arrays.  We therefore take the per-stack resampled intensity and mask arrays
as inputs (a list of pairs of `V → ℚ`, `V` the voxel index set) and embed the
numpy array manipulation exactly.
-/

/-- `array += array_tmp` accumulated over all stacks: the voxelwise sum of the
resampled stack intensities. -/
def sumIntensity {V : Type} (rs : List ((V → ℚ) × (V → ℚ))) (v : V) : ℚ :=
  (rs.map (fun p => p.1 v)).sum

/-- `array_mask += array_mask_tmp` accumulated over all stacks: the voxelwise
sum of the resampled stack masks. -/
def sumMask {V : Type} (rs : List ((V → ℚ) × (V → ℚ))) (v : V) : ℚ :=
  (rs.map (fun p => p.2 v)).sum

/-- `ind[np.nonzero(array_tmp)] += 1` accumulated over all stacks: the number
of stacks whose resampled intensity is nonzero at the voxel. -/
def contribCount {V : Type} (rs : List ((V → ℚ) × (V → ℚ))) (v : V) : ℕ :=
  rs.countP (fun p => decide (p.1 v ≠ 0))

/-- `FirstEstimateOfHRVolume._run_averaging`, voxelwise, on the resampled
arrays: sum intensities and masks, count nonzero intensity contributions,
set zero counts to 1 (`ind[ind==0] = 1`), divide (`np.divide(array, ind)`),
binarize the summed mask (`array_mask[array_mask>0] = 1`), and zero the
intensity where the mask is 0 (`array[array_mask==0] = 0`).  Returns
(final intensity array, final mask array) written back into the HR volume. -/
def runAveraging {V : Type} (rs : List ((V → ℚ) × (V → ℚ))) :
    (V → ℚ) × (V → ℚ) :=
  let ind : V → ℚ := fun v =>
    if contribCount rs v = 0 then 1 else (contribCount rs v : ℚ)
  let array : V → ℚ := fun v => sumIntensity rs v / ind v
  let arrayMask : V → ℚ := fun v =>
    if 0 < sumMask rs v then 1 else sumMask rs v
  let arrayFinal : V → ℚ := fun v => if arrayMask v = 0 then 0 else array v
  (arrayFinal, arrayMask)

/-!
## Configuration state of `VolumeReconstruction`
-/

/-- The error the configuration setters raise (`raise ValueError(...)` in the
source; the spec's `ConfigurationError`). -/
inductive ConfigError where
  | valueError (msg : String) : ConfigError
deriving DecidableEq

/-- The configuration attributes of a `VolumeReconstruction` instance, as set
in `__init__`.  `SDA_approach` is the extra attribute first created by
`set_SDA_approach` (absent until then, hence an `Option`). -/
structure VRState where
  recon_approach : String
  SRR_alpha_cut : ℚ
  SRR_alpha : ℚ
  SRR_iter_max : ℕ
  SRR_approach : String
  SRR_DTD_comp_type : String
  SDA_sigma : ℚ
  SDA_type : String
  SDA_approach : Option String
deriving DecidableEq

/-- `VolumeReconstruction.__init__` configuration defaults. -/
def vrInit : VRState :=
  { recon_approach := "SRR"
    SRR_alpha_cut := 3
    SRR_alpha := 1/10
    SRR_iter_max := 20
    SRR_approach := "TK0"
    SRR_DTD_comp_type := "Laplace"
    SDA_sigma := 1
    SDA_type := "Shepard-YVV"
    SDA_approach := none }

/-- `VolumeReconstruction.set_reconstruction_approach`: raises unless the
name is `"SRR"` or `"SDA"`, and only then assigns `_recon_approach`. -/
def vrSetReconstructionApproach (s : String) (st : VRState) :
    Except ConfigError VRState :=
  if s = "SRR" ∨ s = "SDA" then Except.ok { st with recon_approach := s }
  else Except.error (ConfigError.valueError
    "Error: regularization type can only be either 'SRR' or 'SDA'")

/-- `VolumeReconstruction.set_SRR_approach`: raises unless the name is
`"TK0"` or `"TK1"`, and only then assigns `_SRR_approach`. -/
def vrSetSRRApproach (s : String) (st : VRState) : Except ConfigError VRState :=
  if s = "TK0" ∨ s = "TK1" then Except.ok { st with SRR_approach := s }
  else Except.error (ConfigError.valueError
    "Error: SRR approach can only be either 'TK0' or 'TK1'")

/-- `VolumeReconstruction.get_reconstruction_approach`. -/
def vrGetReconstructionApproach (st : VRState) : String :=
  st.recon_approach

/-- The strategies behind the two orchestrators' dispatch dictionaries. -/
inductive StrategyTag where
  | SDA : StrategyTag
  | Average : StrategyTag
  | SRR : StrategyTag
deriving DecidableEq

/-- The dispatch dictionary `VolumeReconstruction._run_reconstruction`:
`"SDA"` and `"SRR"` are its only keys. -/
def vrDispatch (s : String) : Option StrategyTag :=
  if s = "SDA" then some StrategyTag.SDA
  else if s = "SRR" then some StrategyTag.SRR
  else none

/-- The detour of the strategy-switch-isolation property: set the approach to
`"SDA"`, then `"SRR"`, then `"SDA"` again. -/
def vrSwitchDetour (st : VRState) : Except ConfigError VRState := do
  let st1 ← vrSetReconstructionApproach "SDA" st
  let st2 ← vrSetReconstructionApproach "SRR" st1
  vrSetReconstructionApproach "SDA" st2

/-!
## Stacks, slices and the slice transform propagator
-/

/-- A `Stack` as the orchestrator touches it: the affine transforms of its
slices (`slice.get_affine_transform` / `slice.set_affine_transform`) and its
image content, abstracted to an identifier since the orchestrator never
writes it. -/
structure StackObj where
  slices : List AffineT
  image : ℕ
deriving DecidableEq

/-- `FirstEstimateOfHRVolume._update_slice_transformations`: for each stack
`i` and each of its slices `j`, reads the slice's affine transform, composes
the stack's rigid registration transform with it
(`sitkh.get_composited_sitk_affine_transform(T, slice_trafo)`) and writes the
result back into the slice.  Nothing else of the stack is touched. -/
def updateSliceTransformations :
    List AffineT → List StackObj → List StackObj
  | T :: Ts, s :: ss =>
      { s with slices := s.slices.map (fun t => composeAffine T t) } ::
        updateSliceTransformations Ts ss
  | _, _ => []

/-- `FirstEstimateOfHRVolume._rigidly_register_all_stacks_to_HR_volume`:
selects the in-plane-resampled stack copies or the originals according to the
in-plane flag, computes one rigid registration per selected stack against the
HR volume (`reg`, the external registration engine, is an oracle), and then
runs `_update_slice_transformations`, which always writes into the ORIGINAL
stacks (`self._stacks`).  Returns (updated originals, aligned copies, rigid
registrations). -/
def rigidlyRegisterAllStacksToHRVolume (reg : StackObj → AffineT)
    (flagInPlane : Bool) (originals aligned : List StackObj) :
    List StackObj × List StackObj × List AffineT :=
  let stacksSel := if flagInPlane then aligned else originals
  let rigid := stacksSel.map reg
  (updateSliceTransformations rigid originals, aligned, rigid)

/-!
## Object identity in `FirstEstimateOfHRVolume`

To reason about which `Stack` object the selected reconstruction strategy
mutates, volumes are named by identifiers: `hrVolume` is the object
`self._HR_volume` currently refers to, `sdaTarget` the object the
`ScatteredDataApproximation` collaborator was constructed with in `__init__`.
-/

/-- The state of a `FirstEstimateOfHRVolume` instance relevant to volume
identity, strategy selection and flags. -/
structure FEObj where
  hrVolume : ℕ
  sdaTarget : ℕ
  nextId : ℕ
  recon_approach : String
  flagInPlane : Bool
  flagRegister : Bool
  SDA_sigma : ℚ
  SDA_type : String
deriving DecidableEq

/-- `FirstEstimateOfHRVolume.__init__`: `_HR_volume` is freshly created by
`_get_isotropically_resampled_stack` (object id 0); the SDA collaborator is
constructed with that same object; both option flags default to `False`; the
default reconstruction approach is `"SDA"`; SDA defaults are sigma 0.6 and
kernel `'Shepard-YVV'`. -/
def feInit : FEObj :=
  { hrVolume := 0
    sdaTarget := 0
    nextId := 1
    recon_approach := "SDA"
    flagInPlane := false
    flagRegister := false
    SDA_sigma := 3/5
    SDA_type := "Shepard-YVV" }

/-- `FirstEstimateOfHRVolume.use_in_plane_registration_for_initial_volume_estimate`. -/
def feSetInPlaneFlag (b : Bool) (o : FEObj) : FEObj :=
  { o with flagInPlane := b }

/-- `FirstEstimateOfHRVolume.register_stacks_before_initial_volume_estimate`. -/
def feSetRegisterFlag (b : Bool) (o : FEObj) : FEObj :=
  { o with flagRegister := b }

/-- `FirstEstimateOfHRVolume.get_HR_volume`. -/
def feGetHRVolume (o : FEObj) : ℕ :=
  o.hrVolume

/-- `FirstEstimateOfHRVolume.get_reconstruction_approach`. -/
def feGetReconstructionApproach (o : FEObj) : String :=
  o.recon_approach

/-- The dispatch dictionary `FirstEstimateOfHRVolume._update_HR_volume_estimate`:
`"SDA"` and `"Average"` are its only keys. -/
def feDispatch (s : String) : Option StrategyTag :=
  if s = "SDA" then some StrategyTag.SDA
  else if s = "Average" then some StrategyTag.Average
  else none

/-- `FirstEstimateOfHRVolume.compute_first_estimate_of_HR_volume`, at the
level of volume identity.  If the in-plane flag is set, `self._HR_volume` is
rebound to a NEW object built by `_get_isotropically_resampled_stack` from
the aligned stacks.  The selected strategy then writes its result: `_run_averaging`
assigns into the current `self._HR_volume`; `_run_SDA` calls
`self._SDA.run_reconstruction()`, which (modelled from the spec: the SDA
solver collaborator's `run()` mutates the shared Volume reference it was
configured with, i.e. the object passed at construction in `__init__`)
writes into `sdaTarget`.  Returns the new object state and the id of the
volume the strategy wrote into (`none` when the approach is not a key of the
dispatch dictionary). -/
def feComputeFirstEstimate (o : FEObj) : FEObj × Option ℕ :=
  let o1 := if o.flagInPlane
    then { o with hrVolume := o.nextId, nextId := o.nextId + 1 }
    else o
  let written : Option ℕ :=
    match feDispatch o1.recon_approach with
    | some StrategyTag.SDA => some o1.sdaTarget
    | some StrategyTag.Average => some o1.hrVolume
    | _ => none
  (o1, written)

/-!
## Concrete inputs used by counterexamples and witnesses
-/

/-- One resampled stack over a single voxel: intensity 0, mask 1. -/
def rsC1cex : List ((Fin 1 → ℚ) × (Fin 1 → ℚ)) :=
  [(fun _ => 0, fun _ => 1)]

/-- One resampled stack over a single voxel: intensity 2, mask 1. -/
def rsC1wit : List ((Fin 1 → ℚ) × (Fin 1 → ℚ)) :=
  [(fun _ => 2, fun _ => 1)]

/-- A valid stack geometry: spacing (1, 2, 3), size (4, 5, 6). -/
def gC2wit : ImgGeom :=
  { sx := 1, sy := 2, sz := 3, nx := 4, ny := 5, nz := 6,
    origin := (0, 0, 0), direction := fun _ => 0 }

/-- A degenerate stack geometry with non-positive y-spacing:
spacing (1, -1, 2), size (4, 4, 4). -/
def gC6cex : ImgGeom :=
  { sx := 1, sy := -1, sz := 2, nx := 4, ny := 4, nz := 4,
    origin := (0, 0, 0), direction := fun _ => 0 }

/-- A degenerate stack geometry with zero z-size and negative z-spacing but
nonzero x-spacing: spacing (2, 1, -1), size (3, 3, 0). -/
def gC6wit : ImgGeom :=
  { sx := 2, sy := 1, sz := -1, nx := 3, ny := 3, nz := 0,
    origin := (0, 0, 0), direction := fun _ => 0 }

/-- A degenerate stack geometry with zero x-spacing. -/
def gC6zero : ImgGeom :=
  { sx := 0, sy := 1, sz := 2, nx := 4, ny := 4, nz := 4,
    origin := (0, 0, 0), direction := fun _ => 0 }

/-- A concrete rigid transform for the C3 witness: uniform scaling by 2 with
translation 3 (any affine transform works). -/
def tC3rigid : AffineT :=
  { A := fun i j => if i = j then 2 else 0, t := fun _ => 3 }

/-- A concrete slice transform for the C3 witness. -/
def tC3slice : AffineT :=
  { A := fun i j => if i = j then 1 else 0, t := fun _ => 5 }

/-- Rigid registration list for the C3 witness. -/
def rigidC3wit : List AffineT := [tC3rigid]

/-- Stack list for the C3 witness: one stack, one slice, image id 7. -/
def stacksC3wit : List StackObj := [{ slices := [tC3slice], image := 7 }]

/-- A concrete slice transform for the C9 witness. -/
def tC9a : AffineT :=
  { A := fun i j => if i = j then 3 else 1, t := fun _ => 2 }

/-- A second concrete slice transform for the C9 witness. -/
def tC9b : AffineT :=
  { A := fun _ _ => 1, t := fun _ => 6 }

/-- Stack list for the C9 witness: one stack, two slices, image id 4. -/
def stacksC9wit : List StackObj :=
  [{ slices := [tC9a, tC9b], image := 4 }]

/-- Original stack for the C8 witness: one slice, image id 11. -/
def origC8wit : List StackObj :=
  [{ slices := [{ A := fun i j => if i = j then 1 else 0, t := fun _ => 9 }],
     image := 11 }]

/-- In-plane-resampled stack copy for the C8 witness: one slice, image id 12. -/
def alignedC8wit : List StackObj :=
  [{ slices := [{ A := fun i j => if i = j then 1 else 0, t := fun _ => 8 }],
     image := 12 }]

/-- Registration oracle for the C8 witness: every registration returns a
fixed translation by 1. -/
def regC8wit : StackObj → AffineT :=
  fun _ => { A := fun i j => if i = j then 1 else 0, t := fun _ => 1 }

/-!
## Helper lemmas
-/

lemma updateSlice_length (Ts : List AffineT) (ss : List StackObj) :
    (updateSliceTransformations Ts ss).length = min Ts.length ss.length := by
  induction Ts generalizing ss with
  | nil => cases ss <;> simp [updateSliceTransformations]
  | cons T Ts ih =>
    cases ss with
    | nil => simp [updateSliceTransformations]
    | cons s ss =>
      simp only [updateSliceTransformations, List.length_cons, ih]
      omega

lemma updateSlice_get (Ts : List AffineT) (ss : List StackObj) (i : ℕ)
    (hT : i < Ts.length) (hs : i < ss.length)
    (hr : i < (updateSliceTransformations Ts ss).length) :
    (updateSliceTransformations Ts ss).get ⟨i, hr⟩ =
      { ss.get ⟨i, hs⟩ with
        slices := (ss.get ⟨i, hs⟩).slices.map
          (fun t => composeAffine (Ts.get ⟨i, hT⟩) t) } := by
  induction Ts generalizing ss i with
  | nil => exact absurd hT (by simp)
  | cons T Ts ih =>
    cases ss with
    | nil => exact absurd hs (by simp)
    | cons s ss =>
      cases i with
      | zero => rfl
      | succ n =>
        have hT' : n < Ts.length := by simpa using hT
        have hs' : n < ss.length := by simpa using hs
        have hr' : n < (updateSliceTransformations Ts ss).length := by
          rw [updateSlice_length]; omega
        exact ih ss n hT' hs' hr'

lemma map_composeAffine_id (l : List AffineT) :
    l.map (fun t => composeAffine idAffine t) = l := by
  induction l with
  | nil => rfl
  | cons a l ih => simp [composeAffine_id, ih]

lemma sumMask_nonneg {V : Type} (v : V) :
    ∀ rs : List ((V → ℚ) × (V → ℚ)),
      (∀ p ∈ rs, p.2 v = 0 ∨ p.2 v = 1) → 0 ≤ sumMask rs v := by
  intro rs
  induction rs with
  | nil => intro _; simp [sumMask]
  | cons p rs ih =>
    intro hbin
    have hp := hbin p (List.mem_cons_self p rs)
    have hr := ih (fun q hq => hbin q (List.mem_cons_of_mem p hq))
    unfold sumMask at hr ⊢
    simp only [List.map_cons, List.sum_cons]
    rcases hp with h | h <;> rw [h] <;> linarith

lemma sumIntensity_eq_zero {V : Type} (rs : List ((V → ℚ) × (V → ℚ))) (v : V)
    (h : contribCount rs v = 0) : sumIntensity rs v = 0 := by
  unfold contribCount at h
  rw [List.countP_eq_zero] at h
  have hz : ∀ p ∈ rs, p.1 v = 0 := by
    intro p hp
    have := h p hp
    simpa using this
  unfold sumIntensity
  refine List.sum_eq_zero ?_
  intro x hx
  rcases List.mem_map.mp hx with ⟨p, hp, rfl⟩
  exact hz p hp

lemma contribCount_cast {V : Type} (rs : List ((V → ℚ) × (V → ℚ))) (v : V) :
    ((if contribCount rs v = 0 then 1 else (contribCount rs v : ℚ)) : ℚ) =
      ((max (contribCount rs v) 1 : ℕ) : ℚ) := by
  rcases Nat.eq_zero_or_pos (contribCount rs v) with h | h
  · simp [h]
  · have h1 : ¬ contribCount rs v = 0 := by omega
    have h2 : max (contribCount rs v) 1 = contribCount rs v := by omega
    simp [h1, h2]

/-!
## Claim theorems
-/

/-- C1 (amended): for every run of `_run_averaging` over resampled stacks with
binary resampled masks, the output mask is 1 exactly where the sum of the
resampled masks is positive and 0 elsewhere; the output intensity equals the
sum of the resampled intensities divided by `max(contribution_count, 1)`
except that it is set to 0 wherever the output mask is 0; and a voxel with
zero nonzero intensity contributions from all stacks has output intensity 0
(its output mask, however, is governed solely by the resampled masks). -/
theorem C1_union_aggregation {V : Type} (rs : List ((V → ℚ) × (V → ℚ)))
    (hbin : ∀ p ∈ rs, ∀ v : V, p.2 v = 0 ∨ p.2 v = 1) (v : V) :
    (runAveraging rs).2 v = (if 0 < sumMask rs v then 1 else 0)
    ∧ (runAveraging rs).1 v =
        (if (runAveraging rs).2 v = 0 then 0
          else sumIntensity rs v / ((max (contribCount rs v) 1 : ℕ) : ℚ))
    ∧ (contribCount rs v = 0 → (runAveraging rs).1 v = 0) := by
  have hnn : 0 ≤ sumMask rs v := sumMask_nonneg v rs (fun p hp => hbin p hp v)
  have hmask : (runAveraging rs).2 v = (if 0 < sumMask rs v then 1 else 0) := by
    simp only [runAveraging]
    by_cases h : 0 < sumMask rs v
    · simp [h]
    · have h0 : sumMask rs v = 0 := le_antisymm (not_lt.mp h) hnn
      simp [h, h0]
  refine ⟨hmask, ?_, ?_⟩
  · simp only [runAveraging]
    by_cases h : (if 0 < sumMask rs v then (1 : ℚ) else sumMask rs v) = 0
    · simp only [runAveraging] at hmask
      simp [h, hmask ▸ h]
    · simp only [h, if_neg]
      rw [← contribCount_cast rs v]
  · intro hc
    have hs := sumIntensity_eq_zero rs v hc
    simp only [runAveraging, hs, zero_div]
    simp

/-- C1 counterexample: one stack whose resampled intensity is 0 everywhere
but whose resampled mask is 1 at the voxel.  The voxel has zero nonzero
contributions (`contribution_count = 0`), yet `_run_averaging` gives it
output mask 1, refuting the claim's assertion that such a voxel has output
mask 0. -/
theorem C1_zero_contribution_counterexample :
    contribCount rsC1cex 0 = 0
    ∧ (runAveraging rsC1cex).2 0 = 1
    ∧ (runAveraging rsC1cex).1 0 = 0
    ∧ ¬ (contribCount rsC1cex 0 = 0 → (runAveraging rsC1cex).2 0 = 0) := by
  refine ⟨by decide, ?_, ?_, ?_⟩
  · simp [runAveraging, sumMask, rsC1cex]
  · simp [runAveraging, sumMask, sumIntensity, rsC1cex]
  · intro h
    have h2 := h (by decide)
    simp [runAveraging, sumMask, rsC1cex] at h2

/-- Witness input for C1: one stack contributing intensity 2 with mask 1. -/
theorem C1_union_aggregation_witness :
    (∀ p ∈ rsC1wit, ∀ v : Fin 1, p.2 v = 0 ∨ p.2 v = 1)
    ∧ ((runAveraging rsC1wit).2 0 = (if 0 < sumMask rsC1wit 0 then 1 else 0)
        ∧ (runAveraging rsC1wit).1 0 =
            (if (runAveraging rsC1wit).2 0 = 0 then 0
              else sumIntensity rsC1wit 0 /
                ((max (contribCount rsC1wit 0) 1 : ℕ) : ℚ))
        ∧ (contribCount rsC1wit 0 = 0 → (runAveraging rsC1wit).1 0 = 0)) :=
  ⟨by decide, C1_union_aggregation rsC1wit (by decide) 0⟩

/-- C2: `_get_isotropically_resampled_stack` on a stack with spacing
(sx, sy, sz), size (X, Y, Z) and nonzero sx produces image and mask grids
with spacing (sx, sy, sx), size (X, Y, round(sz/sx·Z)) (numpy round,
half-to-even), nearest-neighbour interpolation, and the reference stack's
origin and direction; image and mask use the identical grid.  Determinism and
purity hold by construction: the embedded computation is a Lean function of
the input geometry alone. -/
theorem C2_isotropic_grid (g : ImgGeom) (hsx : g.sx ≠ 0) :
    getIsotropicallyResampledStackE g =
      Except.ok (getIsotropicallyResampledStack g)
    ∧ (getIsotropicallyResampledStack g).1.spX = g.sx
    ∧ (getIsotropicallyResampledStack g).1.spY = g.sy
    ∧ (getIsotropicallyResampledStack g).1.spZ = g.sx
    ∧ (getIsotropicallyResampledStack g).1.sizeX = g.nx
    ∧ (getIsotropicallyResampledStack g).1.sizeY = g.ny
    ∧ (getIsotropicallyResampledStack g).1.sizeZ =
        npRound (g.sz / g.sx * (g.nz : ℚ))
    ∧ (getIsotropicallyResampledStack g).1.interp = Interp.nearestNeighbor
    ∧ (getIsotropicallyResampledStack g).1.origin = g.origin
    ∧ (getIsotropicallyResampledStack g).1.direction = g.direction
    ∧ (getIsotropicallyResampledStack g).2 =
        (getIsotropicallyResampledStack g).1 := by
  refine ⟨?_, by simp [getIsotropicallyResampledStack], rfl, rfl, rfl, rfl,
    rfl, rfl, rfl, rfl, rfl⟩
  simp [getIsotropicallyResampledStackE, hsx]

/-- Witness input for C2: spacing (1, 2, 3), size (4, 5, 6). -/
theorem C2_isotropic_grid_witness :
    gC2wit.sx ≠ 0
    ∧ (getIsotropicallyResampledStackE gC2wit =
        Except.ok (getIsotropicallyResampledStack gC2wit)
      ∧ (getIsotropicallyResampledStack gC2wit).1.spX = gC2wit.sx
      ∧ (getIsotropicallyResampledStack gC2wit).1.spY = gC2wit.sy
      ∧ (getIsotropicallyResampledStack gC2wit).1.spZ = gC2wit.sx
      ∧ (getIsotropicallyResampledStack gC2wit).1.sizeX = gC2wit.nx
      ∧ (getIsotropicallyResampledStack gC2wit).1.sizeY = gC2wit.ny
      ∧ (getIsotropicallyResampledStack gC2wit).1.sizeZ =
          npRound (gC2wit.sz / gC2wit.sx * (gC2wit.nz : ℚ))
      ∧ (getIsotropicallyResampledStack gC2wit).1.interp =
          Interp.nearestNeighbor
      ∧ (getIsotropicallyResampledStack gC2wit).1.origin = gC2wit.origin
      ∧ (getIsotropicallyResampledStack gC2wit).1.direction = gC2wit.direction
      ∧ (getIsotropicallyResampledStack gC2wit).2 =
          (getIsotropicallyResampledStack gC2wit).1) :=
  ⟨by decide, C2_isotropic_grid gC2wit (by decide)⟩

/-- C3: after `_update_slice_transformations`, the transform of slice `j` of
stack `i` equals the composition of stack `i`'s rigid registration transform
with the slice's transform as it was before the call; the stack's image and
its slice count are untouched, so no slice transform is overwritten by
anything other than this composition. -/
theorem C3_slice_transform_propagation (rigid : List AffineT)
    (sts : List StackObj) (i j : ℕ)
    (hT : i < rigid.length) (hi : i < sts.length)
    (hr : i < (updateSliceTransformations rigid sts).length)
    (hj : j < ((sts.get ⟨i, hi⟩).slices).length)
    (hj' : j <
      (((updateSliceTransformations rigid sts).get ⟨i, hr⟩).slices).length) :
    ((updateSliceTransformations rigid sts).get ⟨i, hr⟩).slices.get ⟨j, hj'⟩ =
      composeAffine (rigid.get ⟨i, hT⟩) ((sts.get ⟨i, hi⟩).slices.get ⟨j, hj⟩)
    ∧ ((updateSliceTransformations rigid sts).get ⟨i, hr⟩).image =
        (sts.get ⟨i, hi⟩).image
    ∧ (((updateSliceTransformations rigid sts).get ⟨i, hr⟩).slices).length =
        ((sts.get ⟨i, hi⟩).slices).length := by
  have h := updateSlice_get rigid sts i hT hi hr
  refine ⟨?_, by rw [h], by rw [h]; simp⟩
  revert hj'
  rw [h]
  intro hj'
  simp [List.get_eq_getElem, List.getElem_map]

/-- Witness for C3: one stack with one slice, a concrete rigid transform. -/
theorem C3_slice_transform_propagation_witness :
    0 < rigidC3wit.length ∧ 0 < stacksC3wit.length
    ∧ ((updateSliceTransformations rigidC3wit stacksC3wit).get
          ⟨0, by decide⟩).slices.get ⟨0, by decide⟩ =
        composeAffine (rigidC3wit.get ⟨0, by decide⟩)
          ((stacksC3wit.get ⟨0, by decide⟩).slices.get ⟨0, by decide⟩) := by
  refine ⟨by decide, by decide, ?_⟩
  exact (C3_slice_transform_propagation rigidC3wit stacksC3wit 0 0
    (by decide) (by decide) (by decide) (by decide) (by decide)).1

/-- C4: `VolumeReconstruction.set_SRR_approach("TK2")` and
`VolumeReconstruction.set_reconstruction_approach("Median")` each raise the
configuration error (`ValueError` in the source, the spec's
`ConfigurationError`) at set-time, from every configuration state; the raise
happens before any assignment, so the prior state is untouched (the setters
are embedded as `Except`-valued functions, and the error branch carries no
new state). -/
theorem C4_configuration_error_at_set_time (st : VRState) :
    vrSetSRRApproach "TK2" st =
      Except.error (ConfigError.valueError
        "Error: SRR approach can only be either 'TK0' or 'TK1'")
    ∧ vrSetReconstructionApproach "Median" st =
      Except.error (ConfigError.valueError
        "Error: regularization type can only be either 'SRR' or 'SDA'") := by
  constructor
  · unfold vrSetSRRApproach
    rw [if_neg (by decide)]
  · unfold vrSetReconstructionApproach
    rw [if_neg (by decide)]

/-- C5 (code bug): with the in-plane flag enabled and the default `"SDA"`
reconstruction approach, `compute_first_estimate_of_HR_volume` rebinds
`self._HR_volume` to a new Stack object (id 1), while the SDA collaborator —
constructed in `__init__` with the original volume (id 0) — writes its result
into that stale object.  `get_HR_volume()` therefore returns a volume the
selected strategy never wrote, contradicting the single-Volume claim and the
method's own documentation that it updates `self._HR_volume`. -/
theorem C5_single_volume_bug :
    feGetReconstructionApproach (feSetInPlaneFlag true feInit) = "SDA"
    ∧ (feComputeFirstEstimate (feSetInPlaneFlag true feInit)).2 = some 0
    ∧ feGetHRVolume (feComputeFirstEstimate (feSetInPlaneFlag true feInit)).1 = 1
    ∧ (feComputeFirstEstimate (feSetInPlaneFlag true feInit)).2 ≠
        some (feGetHRVolume
          (feComputeFirstEstimate (feSetInPlaneFlag true feInit)).1) := by
  refine ⟨rfl, rfl, rfl, ?_⟩
  intro h
  simp [feComputeFirstEstimate, feSetInPlaneFlag, feInit, feGetHRVolume,
    feDispatch] at h

/-- C6 counterexample: a stack with non-positive y-spacing (1, -1, 2).  The
claim requires an `InvalidGeometryError`, but `_get_isotropically_resampled_stack`
performs no geometry validation and succeeds, returning the usual grid. -/
theorem C6_invalid_geometry_counterexample :
    gC6cex.sy ≤ 0
    ∧ getIsotropicallyResampledStackE gC6cex =
        Except.ok (getIsotropicallyResampledStack gC6cex)
    ∧ (getIsotropicallyResampledStack gC6cex).1.sizeZ = 8 := by
  refine ⟨by decide, ?_, ?_⟩
  · simp [getIsotropicallyResampledStackE, gC6cex]
  · norm_num [getIsotropicallyResampledStack, gC6cex, npRound]

/-- C6 (amended): `_get_isotropically_resampled_stack` performs no geometry
validation and never raises an `InvalidGeometryError`.  For every stack
geometry with nonzero x-spacing — including non-positive spacings and zero
sizes — it succeeds with the usual grid; only zero x-spacing fails, and then
with numpy's `ValueError` from assigning a non-finite rounded size, not with
an `InvalidGeometryError`. -/
theorem C6_no_geometry_validation (g : ImgGeom) :
    (g.sx ≠ 0 → getIsotropicallyResampledStackE g =
      Except.ok (getIsotropicallyResampledStack g))
    ∧ (g.sx = 0 → getIsotropicallyResampledStackE g =
      Except.error PyError.valueError) := by
  constructor
  · intro h
    simp [getIsotropicallyResampledStackE, h]
  · intro h
    simp [getIsotropicallyResampledStackE, h]

/-- Witness for C6: a degenerate geometry with zero z-size and negative
z-spacing still succeeds; zero x-spacing raises the `ValueError`. -/
theorem C6_no_geometry_validation_witness :
    gC6wit.sx ≠ 0 ∧ gC6wit.nz = 0 ∧ gC6wit.sz ≤ 0
    ∧ getIsotropicallyResampledStackE gC6wit =
        Except.ok (getIsotropicallyResampledStack gC6wit)
    ∧ gC6zero.sx = 0
    ∧ getIsotropicallyResampledStackE gC6zero =
        Except.error PyError.valueError :=
  ⟨by decide, rfl, by decide,
    (C6_no_geometry_validation gC6wit).1 (by decide), rfl,
    (C6_no_geometry_validation gC6zero).2 rfl⟩

/-- C7: the strategy detour SDA → SRR → SDA via
`set_reconstruction_approach` succeeds from every configuration state and
changes only the active-strategy selector: the resulting state is the
original one with `recon_approach := "SDA"`, so every SDA parameter (sigma,
kernel variant) and every SRR parameter (alpha_cut, alpha, iter_max,
regularization order, DTD variant) keeps its value from before the detour. -/
theorem C7_strategy_switch_isolation (st : VRState) :
    vrSwitchDetour st = Except.ok { st with recon_approach := "SDA" } := by
  rfl

/-- C8: with the in-plane flag enabled,
`_rigidly_register_all_stacks_to_HR_volume` computes the registrations from
the in-plane-resampled stack copies but applies the slice transform update to
the slices of the ORIGINAL stacks; the resampled copies come back unchanged
and the originals' image content is untouched. -/
theorem C8_update_targets_original_stacks (reg : StackObj → AffineT)
    (originals aligned : List StackObj) (i j : ℕ)
    (hi : i < originals.length) (ha : i < aligned.length)
    (hr : i <
      (rigidlyRegisterAllStacksToHRVolume reg true originals aligned).1.length)
    (hj : j < ((originals.get ⟨i, hi⟩).slices).length)
    (hj' : j <
      (((rigidlyRegisterAllStacksToHRVolume reg true originals
          aligned).1.get ⟨i, hr⟩).slices).length) :
    (rigidlyRegisterAllStacksToHRVolume reg true originals aligned).2.1 = aligned
    ∧ ((rigidlyRegisterAllStacksToHRVolume reg true originals
          aligned).1.get ⟨i, hr⟩).image = (originals.get ⟨i, hi⟩).image
    ∧ ((rigidlyRegisterAllStacksToHRVolume reg true originals
          aligned).1.get ⟨i, hr⟩).slices.get ⟨j, hj'⟩ =
        composeAffine (reg (aligned.get ⟨i, ha⟩))
          ((originals.get ⟨i, hi⟩).slices.get ⟨j, hj⟩) := by
  have hT : i < (aligned.map reg).length := by simpa using ha
  have hrr : i < (updateSliceTransformations (aligned.map reg)
      originals).length := by
    simpa [rigidlyRegisterAllStacksToHRVolume] using hr
  have hget : (aligned.map reg).get ⟨i, hT⟩ = reg (aligned.get ⟨i, ha⟩) := by
    simp
  have h := updateSlice_get (aligned.map reg) originals i hT hi hrr
  refine ⟨rfl, ?_, ?_⟩
  · show ((updateSliceTransformations (aligned.map reg)
        originals).get ⟨i, hrr⟩).image = (originals.get ⟨i, hi⟩).image
    rw [h]
  · revert hj'
    show ∀ hjj : j < (((updateSliceTransformations (aligned.map reg)
          originals).get ⟨i, hrr⟩).slices).length,
        ((updateSliceTransformations (aligned.map reg)
          originals).get ⟨i, hrr⟩).slices.get ⟨j, hjj⟩ =
          composeAffine (reg (aligned.get ⟨i, ha⟩))
            ((originals.get ⟨i, hi⟩).slices.get ⟨j, hj⟩)
    rw [h, ← hget]
    intro hjj
    simp [List.get_eq_getElem, List.getElem_map]

/-- Witness for C8: one original stack, one resampled copy, a constant
registration oracle. -/
theorem C8_update_targets_original_stacks_witness :
    0 < origC8wit.length ∧ 0 < alignedC8wit.length
    ∧ (rigidlyRegisterAllStacksToHRVolume regC8wit true origC8wit
        alignedC8wit).2.1 = alignedC8wit
    ∧ ((rigidlyRegisterAllStacksToHRVolume regC8wit true origC8wit
          alignedC8wit).1.get ⟨0, by decide⟩).image =
        (origC8wit.get ⟨0, by decide⟩).image := by
  refine ⟨by decide, by decide, ?_, ?_⟩
  · exact (C8_update_targets_original_stacks regC8wit origC8wit alignedC8wit
      0 0 (by decide) (by decide) (by decide) (by decide) (by decide)).1
  · exact (C8_update_targets_original_stacks regC8wit origC8wit alignedC8wit
      0 0 (by decide) (by decide) (by decide) (by decide) (by decide)).2.1

/-- C9: applying `_update_slice_transformations` with an identity rigid
transform for stack `i` leaves stack `i` — in particular every one of its
slice transforms — exactly unchanged. -/
theorem C9_identity_leaves_transforms (rigid : List AffineT)
    (sts : List StackObj) (i : ℕ)
    (hT : i < rigid.length) (hi : i < sts.length)
    (hr : i < (updateSliceTransformations rigid sts).length)
    (hid : rigid.get ⟨i, hT⟩ = idAffine) :
    (updateSliceTransformations rigid sts).get ⟨i, hr⟩ =
      sts.get ⟨i, hi⟩ := by
  rw [updateSlice_get rigid sts i hT hi hr, hid]
  cases h : sts.get ⟨i, hi⟩ with
  | mk slices image => simp [map_composeAffine_id]

/-- Witness for C9: one stack with two concrete slice transforms and the
identity rigid transform. -/
theorem C9_identity_leaves_transforms_witness :
    ([idAffine].get ⟨0, by decide⟩ = idAffine)
    ∧ (updateSliceTransformations [idAffine] stacksC9wit).get ⟨0, by decide⟩ =
        stacksC9wit.get ⟨0, by decide⟩ :=
  ⟨rfl, C9_identity_leaves_transforms [idAffine] stacksC9wit 0
    (by decide) (by decide) (by decide) rfl⟩

/-- C10: with no strategy ever selected, `FirstEstimateOfHRVolume`'s default
reconstruction approach is `"SDA"` — so `compute_first_estimate_of_HR_volume`
dispatches to the SDA strategy, not Average — and `VolumeReconstruction`'s
default is `"SRR"`; `get_reconstruction_approach` returns these immediately
after construction. -/
theorem C10_default_reconstruction_approaches :
    feGetReconstructionApproach feInit = "SDA"
    ∧ feDispatch (feGetReconstructionApproach feInit) = some StrategyTag.SDA
    ∧ feDispatch (feGetReconstructionApproach feInit) ≠ some StrategyTag.Average
    ∧ (feComputeFirstEstimate feInit).2 = some feInit.sdaTarget
    ∧ vrGetReconstructionApproach vrInit = "SRR"
    ∧ vrDispatch (vrGetReconstructionApproach vrInit) = some StrategyTag.SRR := by
  refine ⟨rfl, rfl, ?_, rfl, rfl, rfl⟩
  decide

end NiftyMIC
